import Mathlib

/-!
Shallow embedding of the speechpal gamification progress engine
(src/therapy/models.py, src/therapy/views.py, src/therapy/consumers.py)
and proofs about its XP / level / unlock behaviour.

Machine integers of the source are embedded as Nat (all quantities in the
claims are non-negative integers); float score fields are embedded as Rat.
Where the source computes `int(x * y)` on floats whose value is exactly
representable, the embedding uses the corresponding exact Nat floor
division, noted at each definition.
-/

namespace SpeechPal

/-! ## LevelCalculator: the three XP-to-level maps in the source -/

/-- therapy/models.py, UserProfile._calculate_xp_for_level:
XP threshold for a given level (staged curve). -/
def calculate_xp_for_level (level : Nat) : Nat :=
  if level = 1 then 0
  else if level ≤ 5 then (level - 1) * 100
  else 400 + (level - 5) * 150 + (level - 5) * (level - 5 - 1) * 25

/-- Spec-side definition (section 4.1 of the spec): `level_for_xp xp` is the
largest level whose staged threshold is at most `xp`.  This is written from
the words of the spec, to be compared against the code maps. -/
def level_for_xp_spec (xp : Nat) : Nat :=
  Nat.findGreatest (fun l => calculate_xp_for_level l ≤ xp) (xp / 100 + 1)

/-- therapy/views.py, the while-loop inside `_calculate_level_from_xp` for
xp at least 1000: starting at level 5 with `remaining = xp - 1000`, consume
`level * 150` per level step.  `k` is the offset above level 5. -/
def level_loop (remaining k : Nat) : Nat :=
  if 150 * (k + 5) ≤ remaining then level_loop (remaining - 150 * (k + 5)) (k + 1)
  else k + 5
termination_by remaining
decreasing_by omega

/-- therapy/views.py, `_calculate_level_from_xp`: the webhook XP-to-level map. -/
def calculate_level_from_xp (xp : Nat) : Nat :=
  if xp < 100 then 1
  else if xp < 250 then 2
  else if xp < 450 then 3
  else if xp < 700 then 4
  else if xp < 1000 then 5
  else level_loop (xp - 1000) 0

/-- therapy/views.py, ConversationFeedbackView._update_user_progress level
loop: `while experience_points >= level * 100: level += 1`. -/
def feedback_level_loop (xp level : Nat) : Nat :=
  if level * 100 ≤ xp then feedback_level_loop xp (level + 1)
  else level
termination_by xp / 100 + 1 - level
decreasing_by
  have : level ≤ xp / 100 := by omega
  omega

/-! ## Webhook XP formulas -/

/-- therapy/views.py, `_calculate_base_xp`: dictionary lookup with default 5
for an unknown difficulty, then `int(base * (score / 100.0))`.  For a
non-negative integer score the float product is exact enough that the
truncation equals Nat floor division by 100. -/
def calculate_base_xp (difficulty : String) (score : Nat) : Nat :=
  let base :=
    if difficulty = "easy" then 5
    else if difficulty = "medium" then 10
    else if difficulty = "hard" then 15
    else 5
  base * score / 100

/-- therapy/views.py, `_calculate_bonus_xp` (the phoneme argument is unused
in the source as well). -/
def calculate_bonus_xp (phoneme : String) (score : Nat) : Nat :=
  if 80 ≤ score then 10
  else if 60 ≤ score then 5
  else 0

/-- The `analysis` object of the conversation_end webhook payload. -/
structure AnalysisResults where
  overall_accuracy : Nat
  words_spoken : Nat
  duration_minutes : Nat
deriving DecidableEq, Repr

/-- therapy/views.py, `_calculate_conversation_xp`.  `none` stands for a
missing or empty (falsy) analysis dictionary.  The source computes
`int(accuracy * 0.5)`: for an integer accuracy the float value is exactly
accuracy / 2, so the truncation is Nat division by 2. -/
def calculate_conversation_xp (analysis : Option AnalysisResults) : Nat :=
  match analysis with
  | none => 20
  | some a =>
      20 + a.overall_accuracy / 2 + min (a.words_spoken * 2) 50 +
        min (a.duration_minutes * 5) 30

/-- Spec-side conversation XP (section 6 of the spec): uses `round`, which in
the Python of the source is round-half-to-even, applied to accuracy * 0.5. -/
def conversation_xp_claim (a : AnalysisResults) : Nat :=
  let rounded :=
    if a.overall_accuracy % 2 = 0 then a.overall_accuracy / 2
    else if (a.overall_accuracy / 2) % 2 = 0 then a.overall_accuracy / 2
    else a.overall_accuracy / 2 + 1
  20 + rounded + min (a.words_spoken * 2) 50 + min (a.duration_minutes * 5) 30

/-! ## Data model -/

/-- One row of therapy/models.py SpeechSession (the fields the claims touch).
Score fields are floats in the source, embedded as Rat. -/
structure SpeechSessionRow where
  session_id : Option String
  duration : Nat
  words_spoken : Nat
  clarity_score : Rat
  fluency_score : Rat
  confidence_score : Rat
  overall_score : Rat
  experience_gained : Nat
deriving DecidableEq, Repr

/-- therapy/models.py, SpeechSession.save: recomputes overall_score as the
mean of the three component scores before persisting, regardless of the
value the caller supplied. -/
def speechSessionSave (s : SpeechSessionRow) : SpeechSessionRow :=
  { s with overall_score :=
      (s.clarity_score + s.fluency_score + s.confidence_score) / 3 }

/-- One row of therapy/models.py UnlockedCustomization, minus the user and
timestamp columns (all states here are the rows of a single user). -/
structure UnlockRow where
  customization_type : String
  customization_value : String
  level_required : Nat
deriving DecidableEq, Repr

/-- The fields of therapy/models.py UserProfile that the claims are about
(improvement_score and the boolean flags play no part in any claim and are
omitted).  total_speaking_time is in whole seconds. -/
structure Profile where
  level : Nat
  experience_points : Nat
  total_speaking_time : Nat
deriving DecidableEq, Repr

/-- The per-user database state the progress engine reads and writes. -/
structure UserState where
  profile : Profile
  sessions : List SpeechSessionRow
  unlocked : List UnlockRow
deriving DecidableEq, Repr

/-- A freshly created user: UserProfile defaults level=1, xp=0, no sessions,
no unlock rows. -/
def initialState : UserState :=
  { profile := { level := 1, experience_points := 0, total_speaking_time := 0 },
    sessions := [], unlocked := [] }

/-! ## RewardCatalog -/

/-- therapy/views.py, the `level_requirements` table shared by
`_unlock_customizations_for_level` and
CharacterCustomizationOptionsView._get_level_requirement, flattened in the
iteration order of the source dictionaries. -/
def level_requirements : List (String × String × Nat) :=
  [("body_color", "brown", 1), ("body_color", "golden", 1),
   ("body_color", "black", 2), ("body_color", "white", 3),
   ("body_color", "spotted", 5), ("body_color", "blue", 10),
   ("body_color", "purple", 15), ("body_color", "rainbow", 20),
   ("eye_color", "brown", 1), ("eye_color", "blue", 2),
   ("eye_color", "green", 3), ("eye_color", "amber", 4),
   ("eye_color", "purple", 12), ("eye_color", "rainbow", 18),
   ("accessory", "none", 1), ("accessory", "collar", 2),
   ("accessory", "hat", 4), ("accessory", "bow_tie", 6),
   ("accessory", "glasses", 8), ("accessory", "cape", 12),
   ("accessory", "crown", 16), ("accessory", "wings", 20)]

/-- The call `UnlockedCustomization.objects.get_or_create` as made by
`_unlock_customizations_for_level`, where `level_required` is part of the
lookup (not a default): a row matching all three fields is a no-op; a row
matching only (type, value) with a different level_required makes the
create violate the (user, type, value) uniqueness constraint, raising
IntegrityError (the Bool is false); otherwise the row is inserted. -/
def get_or_create_unlock (rows : List UnlockRow) (t v : String) (req : Nat) :
    List UnlockRow × Bool :=
  if rows.any (fun r =>
      r.customization_type == t && r.customization_value == v &&
        r.level_required == req) then
    (rows, true)
  else if rows.any (fun r =>
      r.customization_type == t && r.customization_value == v) then
    (rows, false)
  else
    (rows ++ [⟨t, v, req⟩], true)

/-- One iteration of the catalog loop of `_unlock_customizations_for_level`;
once a get_or_create has raised, the loop is abandoned (each prior create
stays committed, Django autocommit). -/
def unlockStep (level : Nat) (acc : List UnlockRow × Bool)
    (e : String × String × Nat) : List UnlockRow × Bool :=
  if acc.2 then
    if e.2.2 ≤ level then get_or_create_unlock acc.1 e.1 e.2.1 e.2.2
    else acc
  else acc

/-- therapy/views.py, `_unlock_customizations_for_level`: grant every catalog
pair whose required level is at most `level`. -/
def unlock_customizations_for_level (level : Nat) (rows : List UnlockRow) :
    List UnlockRow × Bool :=
  level_requirements.foldl (unlockStep level) (rows, true)

/-- A `get_or_create` with `level_required` only in `defaults`, as used by
ConversationFeedbackView._unlock_level_rewards: lookup is on (type, value)
alone, so it never raises. -/
def get_or_create_unlock_defaults (rows : List UnlockRow) (t v : String)
    (lvl : Nat) : List UnlockRow :=
  if rows.any (fun r =>
      r.customization_type == t && r.customization_value == v) then rows
  else rows ++ [⟨t, v, lvl⟩]

/-- therapy/views.py, the `level_rewards` table of
ConversationFeedbackView._unlock_level_rewards: rewards attached to one
exact level. -/
def feedback_level_rewards (level : Nat) : List (String × String) :=
  if level = 2 then [("body_color", "black"), ("eye_color", "blue")]
  else if level = 3 then [("eye_color", "green"), ("accessory", "collar")]
  else if level = 4 then [("accessory", "hat")]
  else if level = 5 then [("body_color", "spotted")]
  else if level = 6 then [("accessory", "bow_tie")]
  else if level = 8 then [("accessory", "glasses")]
  else if level = 10 then [("body_color", "blue")]
  else if level = 12 then [("eye_color", "purple"), ("accessory", "cape")]
  else if level = 15 then [("body_color", "purple")]
  else if level = 16 then [("accessory", "crown")]
  else if level = 18 then [("eye_color", "rainbow")]
  else if level = 20 then [("body_color", "rainbow"), ("accessory", "wings")]
  else []

/-- ConversationFeedbackView._unlock_level_rewards: grants only the rewards
of the exact final level, each with level_required defaulted to that level. -/
def unlock_level_rewards (level : Nat) (rows : List UnlockRow) :
    List UnlockRow :=
  (feedback_level_rewards level).foldl
    (fun acc tv => get_or_create_unlock_defaults acc tv.1 tv.2 level) rows

/-! ## ProgressLedger entry paths -/

/-- Result dictionary returned by the consumer path on success. -/
structure ConsumerResult where
  old_level : Nat
  new_level : Nat
  total_experience : Nat
  experience_gained : Nat
deriving DecidableEq, Repr

/-- The AI analysis values consumed by the WebSocket path (clarity, grammar
and vocabulary scores are stored as clarity / fluency / confidence of the
session row in the source). -/
structure WsAnalysis where
  clarity_score : Rat
  grammar_score : Rat
  vocabulary_score : Rat
  overall_score : Rat
  experience_gained : Nat
deriving DecidableEq, Repr

/-- therapy/consumers.py, SpeechAnalysisConsumer.save_speech_session_atomic:
inside one transaction, return None (no state change) when a session with
this request_id already exists; otherwise append the session row (through
SpeechSession.save), add the XP and set level to xp // 100 + 1. -/
def save_speech_session_atomic (st : UserState) (analysis : WsAnalysis)
    (words_spoken duration_seconds : Nat) (request_id : String) :
    Option ConsumerResult × UserState :=
  if st.sessions.any (fun s => s.session_id == some request_id) then
    (none, st)
  else
    let session := speechSessionSave
      { session_id := some request_id
        duration := duration_seconds
        words_spoken := words_spoken
        clarity_score := analysis.clarity_score
        fluency_score := analysis.grammar_score
        confidence_score := analysis.vocabulary_score
        overall_score := analysis.overall_score
        experience_gained := analysis.experience_gained }
    let old_level := st.profile.level
    let xp := st.profile.experience_points + analysis.experience_gained
    let new_level := xp / 100 + 1
    (some { old_level := old_level, new_level := new_level,
            total_experience := xp,
            experience_gained := analysis.experience_gained },
     { profile := { level := new_level, experience_points := xp,
                    total_speaking_time :=
                      st.profile.total_speaking_time + duration_seconds },
       sessions := st.sessions ++ [session],
       unlocked := st.unlocked })

/-- award_xp webhook payload (score 0-100 per the vendor contract; the
embedding takes any Nat). -/
structure AwardPayload where
  difficulty : String
  score : Nat
  phoneme : String
  session_id : Option String
deriving DecidableEq, Repr

/-- Response body of the award_xp webhook on HTTP 200. -/
structure AwardResponse where
  user_xp : Nat
  user_level : Nat
  xp_earned : Nat
  level_up : Bool
  old_level : Nat
  new_level : Nat
deriving DecidableEq, Repr

/-- therapy/views.py, `elevenlabs_award_xp_webhook`, for a resolvable user.
There is no transaction here: each ORM write commits on its own, so the
returned state reflects exactly the writes that happened before any
exception.  Source order: compute XP; if the recomputed level rose, commit
the unlock rows; profile.save(); then, when a session_id is present, create
the SpeechSession row - which raises IntegrityError (caught as a 500) when
a row with this (user, session_id) already exists, leaving the committed
profile update in place. -/
def elevenlabs_award_xp_webhook (st : UserState) (pl : AwardPayload) :
    UserState × Except String AwardResponse :=
  let total_xp := calculate_base_xp pl.difficulty pl.score +
    calculate_bonus_xp pl.phoneme pl.score
  let old_level := st.profile.level
  let xp := st.profile.experience_points + total_xp
  let new_level := calculate_level_from_xp xp
  let level_up := old_level < new_level
  let unlockRes :=
    if level_up then unlock_customizations_for_level new_level st.unlocked
    else (st.unlocked, true)
  if unlockRes.2 = false then
    -- IntegrityError inside the unlock loop: profile.save() is never
    -- reached, but the unlock rows created so far stay committed.
    ({ st with unlocked := unlockRes.1 }, Except.error "IntegrityError")
  else
    let profile :=
      { level := if level_up then new_level else old_level,
        experience_points := xp,
        total_speaking_time := st.profile.total_speaking_time }
    let response : AwardResponse :=
      { user_xp := xp, user_level := profile.level, xp_earned := total_xp,
        level_up := level_up, old_level := old_level, new_level := new_level }
    match pl.session_id with
    | none =>
        ({ st with profile := profile, unlocked := unlockRes.1 },
         Except.ok response)
    | some sid =>
        if st.sessions.any (fun s => s.session_id == some sid) then
          ({ st with profile := profile, unlocked := unlockRes.1 },
           Except.error "IntegrityError")
        else
          let session := speechSessionSave
            { session_id := some sid, duration := 30, words_spoken := 1,
              clarity_score := (pl.score : Rat),
              fluency_score := (pl.score : Rat),
              confidence_score := (pl.score : Rat),
              overall_score := 0,
              experience_gained := total_xp }
          ({ profile := profile, sessions := st.sessions ++ [session],
             unlocked := unlockRes.1 },
           Except.ok response)

/-- conversation_end webhook payload. -/
structure ConversationEndPayload where
  analysis : Option AnalysisResults
  session_id : Option String
deriving DecidableEq, Repr

/-- Response body of the conversation_end webhook on HTTP 200. -/
structure ConversationEndResponse where
  user_xp : Nat
  user_level : Nat
  xp_earned : Nat
  level_up : Bool
deriving DecidableEq, Repr

/-- therapy/views.py, `elevenlabs_conversation_end_webhook`, for a
resolvable user.  Same non-transactional shape as award_xp.  When a
session_id is present the source instantiates ConversationSession with
keyword arguments (session_id, transcript, analysis_results,
experience_gained) that are not fields of that model, so the create raises
TypeError after the profile update was already committed. -/
def elevenlabs_conversation_end_webhook (st : UserState)
    (pl : ConversationEndPayload) :
    UserState × Except String ConversationEndResponse :=
  let total_xp := calculate_conversation_xp pl.analysis
  let old_level := st.profile.level
  let xp := st.profile.experience_points + total_xp
  let new_level := calculate_level_from_xp xp
  let level_up := old_level < new_level
  let unlockRes :=
    if level_up then unlock_customizations_for_level new_level st.unlocked
    else (st.unlocked, true)
  if unlockRes.2 = false then
    ({ st with unlocked := unlockRes.1 }, Except.error "IntegrityError")
  else
    let profile :=
      { level := if level_up then new_level else old_level,
        experience_points := xp,
        total_speaking_time := st.profile.total_speaking_time }
    let response : ConversationEndResponse :=
      { user_xp := xp, user_level := profile.level, xp_earned := total_xp,
        level_up := level_up }
    match pl.session_id with
    | none =>
        ({ st with profile := profile, unlocked := unlockRes.1 },
         Except.ok response)
    | some _ =>
        ({ st with profile := profile, unlocked := unlockRes.1 },
         Except.error "TypeError")

/-- therapy/views.py, SpeechSessionListCreateView._update_user_progress:
add the session XP and duration; level up by a single increment when the
new XP reaches level * 100 (the improvement_score rolling average is
omitted: no claim mentions it). -/
def update_user_progress_session_view (p : Profile)
    (experience_gained duration_seconds : Nat) : Profile :=
  let xp := p.experience_points + experience_gained
  let level := if p.level * 100 ≤ xp then p.level + 1 else p.level
  { level := level, experience_points := xp,
    total_speaking_time := p.total_speaking_time + duration_seconds }

/-- therapy/views.py, the XP award inside
SpeechSessionListCreateView._check_achievements: achievement reward XP is
added to the profile and saved with no level recomputation. -/
def achievement_reward_xp (p : Profile) (reward : Nat) : Profile :=
  { p with experience_points := p.experience_points + reward }

/-- therapy/views.py, ConversationFeedbackView experience formula:
`int((15 + min(duration_seconds // 60 * 2, 30)) * multiplier)` with
multiplier 1.0 / 1.2 / 1.5 by engagement.  The float products involved are
exact enough that truncation equals the rational floor computed here. -/
def feedback_experience (duration_seconds : Nat) (engagement : String) : Nat :=
  let duration_bonus := min (duration_seconds / 60 * 2) 30
  if engagement = "low" then 15 + duration_bonus
  else if engagement = "medium" then (15 + duration_bonus) * 6 / 5
  else (15 + duration_bonus) * 3 / 2

/-- therapy/views.py, ConversationFeedbackView._update_user_progress plus
the subsequent _unlock_level_rewards call: add XP and duration, run the
level-up while loop, and when the level rose grant only the rewards
attached to the exact final level. -/
def conversation_feedback_progress (st : UserState)
    (duration_seconds : Nat) (engagement : String) : UserState :=
  let earned := feedback_experience duration_seconds engagement
  let old_level := st.profile.level
  let xp := st.profile.experience_points + earned
  let level := feedback_level_loop xp st.profile.level
  let profile :=
    { level := level, experience_points := xp,
      total_speaking_time := st.profile.total_speaking_time + duration_seconds }
  let unlocked :=
    if old_level < level then unlock_level_rewards level st.unlocked
    else st.unlocked
  { st with profile := profile, unlocked := unlocked }

/-- One scoring event, tagged with the entry path that applies it. -/
inductive Event where
  | wsAnalyze (analysis : WsAnalysis) (words duration : Nat)
      (request_id : String)
  | sessionView (experience_gained duration : Nat)
  | achievementReward (reward : Nat)
  | feedback (duration_seconds : Nat) (engagement : String)
  | awardXp (pl : AwardPayload)
  | conversationEnd (pl : ConversationEndPayload)
deriving DecidableEq

/-- Applying one event to the per-user state through its entry path. -/
def step (st : UserState) (e : Event) : UserState :=
  match e with
  | .wsAnalyze a w d rid => (save_speech_session_atomic st a w d rid).2
  | .sessionView xp d =>
      { st with profile := update_user_progress_session_view st.profile xp d }
  | .achievementReward r =>
      { st with profile := achievement_reward_xp st.profile r }
  | .feedback d eng => conversation_feedback_progress st d eng
  | .awardXp pl => (elevenlabs_award_xp_webhook st pl).1
  | .conversationEnd pl => (elevenlabs_conversation_end_webhook st pl).1

/-! ## Arithmetic lemmas about the level maps -/

lemma level_loop_le (r k : Nat) : level_loop r k ≤ k + 5 + r / 750 := by
  induction r, k using level_loop.induct with
  | case1 r k h ih =>
    rw [level_loop, if_pos h]
    have h750 : 750 ≤ 150 * (k + 5) := by omega
    have : (r - 150 * (k + 5)) / 750 ≤ (r - 750) / 750 :=
      Nat.div_le_div_right (by omega)
    omega
  | case2 r k h =>
    rw [level_loop, if_neg h]
    omega

/-- The webhook XP-to-level map never exceeds the flat consumer map
xp / 100 + 1. -/
lemma calculate_level_from_xp_le (xp : Nat) :
    calculate_level_from_xp xp ≤ xp / 100 + 1 := by
  unfold calculate_level_from_xp
  split
  · omega
  · split
    · omega
    · split
      · omega
      · split
        · omega
        · split
          · omega
          · have h := level_loop_le (xp - 1000) 0
            have : (xp - 1000) / 750 ≤ (xp - 1000) / 100 :=
              Nat.div_le_div_left (by omega) (by omega)
            omega

lemma feedback_level_loop_ge (xp level : Nat) :
    level ≤ feedback_level_loop xp level := by
  induction level using feedback_level_loop.induct xp with
  | case1 level h ih => rw [feedback_level_loop, if_pos h]; omega
  | case2 level h => rw [feedback_level_loop, if_neg h]

lemma feedback_level_loop_le (xp level : Nat) (h : level ≤ xp / 100 + 1) :
    feedback_level_loop xp level ≤ xp / 100 + 1 := by
  induction level using feedback_level_loop.induct xp with
  | case1 level h1 ih =>
    rw [feedback_level_loop, if_pos h1]
    exact ih (by omega)
  | case2 level h1 => rw [feedback_level_loop, if_neg h1]; omega

/-! ## The unlock loop of the webhook path -/

/-- A set of unlock rows is consistent with the catalog when every row that
names a catalog (type, value) pair carries the required level of that pair.
Rows created by `_unlock_customizations_for_level` itself always are; rows
created by other paths need not be. -/
def unlocks_consistent (rows : List UnlockRow) : Bool :=
  rows.all fun r => level_requirements.all fun e =>
    decide (r.customization_type = e.1 → r.customization_value = e.2.1 →
      r.level_required = e.2.2)

lemma unlocks_consistent_iff (rows : List UnlockRow) :
    unlocks_consistent rows = true ↔
      ∀ r ∈ rows, ∀ e ∈ level_requirements, r.customization_type = e.1 →
        r.customization_value = e.2.1 → r.level_required = e.2.2 := by
  simp only [unlocks_consistent, List.all_eq_true, decide_eq_true_eq]

lemma get_or_create_unlock_spec (rows : List UnlockRow) (t v : String)
    (req : Nat)
    (hc : ∀ r ∈ rows, r.customization_type = t → r.customization_value = v →
      r.level_required = req) :
    get_or_create_unlock rows t v req =
      (if (⟨t, v, req⟩ : UnlockRow) ∈ rows then rows
       else rows ++ [⟨t, v, req⟩], true) := by
  unfold get_or_create_unlock
  by_cases h1 : rows.any (fun r =>
      r.customization_type == t && r.customization_value == v &&
        r.level_required == req) = true
  · rw [if_pos h1]
    rw [List.any_eq_true] at h1
    obtain ⟨r, hr, hmatch⟩ := h1
    simp only [Bool.and_eq_true, beq_iff_eq] at hmatch
    obtain ⟨⟨h2, h3⟩, h4⟩ := hmatch
    have : r = ⟨t, v, req⟩ := by cases r; simp_all
    rw [if_pos (this ▸ hr)]
  · rw [if_neg h1]
    have h2 : rows.any (fun r =>
        r.customization_type == t && r.customization_value == v) = false := by
      by_contra h
      rw [Bool.not_eq_false, List.any_eq_true] at h
      obtain ⟨r, hr, hmatch⟩ := h
      simp only [Bool.and_eq_true, beq_iff_eq] at hmatch
      apply h1
      rw [List.any_eq_true]
      exact ⟨r, hr, by
        simp only [Bool.and_eq_true, beq_iff_eq]
        exact ⟨⟨hmatch.1, hmatch.2⟩, hc r hr hmatch.1 hmatch.2⟩⟩
    rw [h2]
    simp only [Bool.false_eq_true, if_false]
    have hnotmem : (⟨t, v, req⟩ : UnlockRow) ∉ rows := by
      intro hmem
      apply h1
      rw [List.any_eq_true]
      exact ⟨_, hmem, by simp⟩
    rw [if_neg hnotmem]

/-- Behaviour of the catalog fold of `_unlock_customizations_for_level` over
any functional catalog, starting from rows consistent with it: the loop
raises nothing, keeps every previous row, grants every qualifying catalog
entry, and creates only catalog rows. -/
lemma unlock_fold_spec (level : Nat) (cat : List (String × String × Nat))
    (rows : List UnlockRow)
    (hfun : ∀ e ∈ cat, ∀ f ∈ cat, e.1 = f.1 → e.2.1 = f.2.1 → e.2.2 = f.2.2)
    (hcons : ∀ r ∈ rows, ∀ e ∈ cat, r.customization_type = e.1 →
      r.customization_value = e.2.1 → r.level_required = e.2.2) :
    (cat.foldl (unlockStep level) (rows, true)).2 = true ∧
    (∀ r ∈ rows, r ∈ (cat.foldl (unlockStep level) (rows, true)).1) ∧
    (∀ e ∈ cat, e.2.2 ≤ level →
      (⟨e.1, e.2.1, e.2.2⟩ : UnlockRow) ∈
        (cat.foldl (unlockStep level) (rows, true)).1) ∧
    (∀ r ∈ (cat.foldl (unlockStep level) (rows, true)).1,
      r ∈ rows ∨ ∃ e ∈ cat, r = ⟨e.1, e.2.1, e.2.2⟩) := by
  induction cat generalizing rows with
  | nil => simp
  | cons e cat ih =>
    have hstep : unlockStep level (rows, true) e =
        (if e.2.2 ≤ level then
          get_or_create_unlock rows e.1 e.2.1 e.2.2 else (rows, true)) := by
      simp [unlockStep]
    by_cases hle : e.2.2 ≤ level
    · rw [if_pos hle] at hstep
      rw [get_or_create_unlock_spec rows e.1 e.2.1 e.2.2
        (fun r hr h1 h2 => hcons r hr e (List.mem_cons_self e cat) h1 h2)]
        at hstep
      set rows' : List UnlockRow :=
        if (⟨e.1, e.2.1, e.2.2⟩ : UnlockRow) ∈ rows then rows
        else rows ++ [⟨e.1, e.2.1, e.2.2⟩] with hrows'
      have hsub : ∀ r ∈ rows, r ∈ rows' := by
        intro r hr
        rw [hrows']
        split <;> simp [hr]
      have hmemE : (⟨e.1, e.2.1, e.2.2⟩ : UnlockRow) ∈ rows' := by
        rw [hrows']
        split
        · assumption
        · simp
      have hnew : ∀ r ∈ rows', r ∈ rows ∨ r = ⟨e.1, e.2.1, e.2.2⟩ := by
        intro r hr
        rw [hrows'] at hr
        revert hr
        split
        · exact fun hr => Or.inl hr
        · intro hr
          rcases List.mem_append.mp hr with h | h
          · exact Or.inl h
          · simp at h; exact Or.inr h
      have hcons' : ∀ r ∈ rows', ∀ f ∈ cat, r.customization_type = f.1 →
          r.customization_value = f.2.1 → r.level_required = f.2.2 := by
        intro r hr f hf h1 h2
        rcases hnew r hr with h | h
        · exact hcons r h f (List.mem_cons_of_mem e hf) h1 h2
        · subst h
          exact hfun e (List.mem_cons_self e cat) f
            (List.mem_cons_of_mem e hf) h1 h2
      have hfun' : ∀ a ∈ cat, ∀ f ∈ cat, a.1 = f.1 → a.2.1 = f.2.1 →
          a.2.2 = f.2.2 := fun a ha f hf =>
        hfun a (List.mem_cons_of_mem e ha) f (List.mem_cons_of_mem e hf)
      obtain ⟨ih1, ih2, ih3, ih4⟩ := ih rows' hfun' hcons'
      rw [List.foldl_cons, hstep]
      refine ⟨ih1, ?_, ?_, ?_⟩
      · exact fun r hr => ih2 r (hsub r hr)
      · intro f hf hlef
        rcases List.mem_cons.mp hf with h | h
        · subst h; exact ih2 _ hmemE
        · exact ih3 f h hlef
      · intro r hr
        rcases ih4 r hr with h | ⟨f, hf, hrf⟩
        · rcases hnew r h with h' | h'
          · exact Or.inl h'
          · exact Or.inr ⟨e, List.mem_cons_self e cat, h'⟩
        · exact Or.inr ⟨f, List.mem_cons_of_mem e hf, hrf⟩
    · rw [if_neg hle] at hstep
      have hcons' : ∀ r ∈ rows, ∀ f ∈ cat, r.customization_type = f.1 →
          r.customization_value = f.2.1 → r.level_required = f.2.2 :=
        fun r hr f hf => hcons r hr f (List.mem_cons_of_mem e hf)
      have hfun' : ∀ a ∈ cat, ∀ f ∈ cat, a.1 = f.1 → a.2.1 = f.2.1 →
          a.2.2 = f.2.2 := fun a ha f hf =>
        hfun a (List.mem_cons_of_mem e ha) f (List.mem_cons_of_mem e hf)
      obtain ⟨ih1, ih2, ih3, ih4⟩ := ih rows hfun' hcons'
      rw [List.foldl_cons, hstep]
      refine ⟨ih1, ih2, ?_, ?_⟩
      · intro f hf hlef
        rcases List.mem_cons.mp hf with h | h
        · exact absurd hlef (h ▸ hle)
        · exact ih3 f h hlef
      · intro r hr
        rcases ih4 r hr with h | ⟨f, hf, hrf⟩
        · exact Or.inl h
        · exact Or.inr ⟨f, List.mem_cons_of_mem e hf, hrf⟩

/-- The catalog is functional: a (type, value) pair determines its level. -/
lemma level_requirements_functional :
    ∀ e ∈ level_requirements, ∀ f ∈ level_requirements,
      e.1 = f.1 → e.2.1 = f.2.1 → e.2.2 = f.2.2 := by decide

/-- The lemma `unlock_fold_spec` instantiated at the catalog of the source. -/
lemma unlock_customizations_for_level_spec (level : Nat)
    (rows : List UnlockRow) (h : unlocks_consistent rows = true) :
    (unlock_customizations_for_level level rows).2 = true ∧
    (∀ r ∈ rows, r ∈ (unlock_customizations_for_level level rows).1) ∧
    (∀ e ∈ level_requirements, e.2.2 ≤ level →
      (⟨e.1, e.2.1, e.2.2⟩ : UnlockRow) ∈
        (unlock_customizations_for_level level rows).1) ∧
    (∀ r ∈ (unlock_customizations_for_level level rows).1,
      r ∈ rows ∨ ∃ e ∈ level_requirements, r = ⟨e.1, e.2.1, e.2.2⟩) :=
  unlock_fold_spec level level_requirements rows
    level_requirements_functional ((unlocks_consistent_iff rows).mp h)

/-- The unlock loop keeps the consistency invariant. -/
lemma unlock_customizations_consistent (level : Nat) (rows : List UnlockRow)
    (h : unlocks_consistent rows = true) :
    unlocks_consistent (unlock_customizations_for_level level rows).1
      = true := by
  rw [unlocks_consistent_iff]
  intro r hr e he h1 h2
  rcases (unlock_customizations_for_level_spec level rows h).2.2.2 r hr with
    hold | ⟨f, hf, hrf⟩
  · exact (unlocks_consistent_iff rows).mp h r hold e he h1 h2
  · subst hrf
    exact level_requirements_functional f hf e he h1 h2


/-- award_xp with no session_id, on unlock rows consistent with the catalog:
the request succeeds, adds exactly the computed XP, creates no session row,
and keeps the consistency invariant. -/
lemma award_no_session (st : UserState) (pl : AwardPayload)
    (hsid : pl.session_id = none)
    (hcons : unlocks_consistent st.unlocked = true) :
    (elevenlabs_award_xp_webhook st pl).2 =
      Except.ok { user_xp := st.profile.experience_points +
                    (calculate_base_xp pl.difficulty pl.score +
                      calculate_bonus_xp pl.phoneme pl.score),
                  user_level :=
                    ((elevenlabs_award_xp_webhook st pl).1).profile.level,
                  xp_earned := calculate_base_xp pl.difficulty pl.score +
                    calculate_bonus_xp pl.phoneme pl.score,
                  level_up := st.profile.level <
                    calculate_level_from_xp (st.profile.experience_points +
                      (calculate_base_xp pl.difficulty pl.score +
                        calculate_bonus_xp pl.phoneme pl.score)),
                  old_level := st.profile.level,
                  new_level :=
                    calculate_level_from_xp (st.profile.experience_points +
                      (calculate_base_xp pl.difficulty pl.score +
                        calculate_bonus_xp pl.phoneme pl.score)) } ∧
    ((elevenlabs_award_xp_webhook st pl).1).profile.experience_points =
      st.profile.experience_points +
        (calculate_base_xp pl.difficulty pl.score +
          calculate_bonus_xp pl.phoneme pl.score) ∧
    ((elevenlabs_award_xp_webhook st pl).1).sessions = st.sessions ∧
    unlocks_consistent ((elevenlabs_award_xp_webhook st pl).1).unlocked
      = true := by
  unfold elevenlabs_award_xp_webhook
  simp only [hsid]
  by_cases hlu : st.profile.level <
      calculate_level_from_xp (st.profile.experience_points +
        (calculate_base_xp pl.difficulty pl.score +
          calculate_bonus_xp pl.phoneme pl.score))
  · simp only [hlu, if_true, if_pos]
    have hok := (unlock_customizations_for_level_spec
      (calculate_level_from_xp (st.profile.experience_points +
        (calculate_base_xp pl.difficulty pl.score +
          calculate_bonus_xp pl.phoneme pl.score))) st.unlocked hcons).1
    simp only [hok]
    simp only [Bool.true_eq_false, if_false]
    exact ⟨trivial, trivial, trivial, unlock_customizations_consistent _ _ hcons⟩
  · simp only [hlu, if_false]
    simp only [Bool.true_eq_false, if_false]
    exact ⟨trivial, trivial, trivial, hcons⟩

/-- conversation_end with a non-empty analysis and no session_id, on
consistent unlock rows: the request succeeds and grants exactly
calculate_conversation_xp. -/
lemma conversation_end_no_session (st : UserState) (a : AnalysisResults)
    (hcons : unlocks_consistent st.unlocked = true) :
    (elevenlabs_conversation_end_webhook st ⟨some a, none⟩).2 =
      Except.ok { user_xp := st.profile.experience_points +
                    calculate_conversation_xp (some a),
                  user_level := ((elevenlabs_conversation_end_webhook st
                    ⟨some a, none⟩).1).profile.level,
                  xp_earned := calculate_conversation_xp (some a),
                  level_up := st.profile.level <
                    calculate_level_from_xp (st.profile.experience_points +
                      calculate_conversation_xp (some a)) } ∧
    ((elevenlabs_conversation_end_webhook st ⟨some a, none⟩).1).profile.experience_points =
      st.profile.experience_points + calculate_conversation_xp (some a) := by
  unfold elevenlabs_conversation_end_webhook
  by_cases hlu : st.profile.level <
      calculate_level_from_xp (st.profile.experience_points +
        calculate_conversation_xp (some a))
  · simp only [hlu, if_true, if_pos]
    have hok := (unlock_customizations_for_level_spec
      (calculate_level_from_xp (st.profile.experience_points +
        calculate_conversation_xp (some a))) st.unlocked hcons).1
    simp only [hok, Bool.true_eq_false, if_false]
    exact ⟨trivial, trivial⟩
  · simp only [hlu, if_false, Bool.true_eq_false]
    exact ⟨trivial, trivial⟩

/-- The invariant that relates a stored level to the stored XP: the level
never exceeds the flat-rule value xp / 100 + 1.  It holds for a fresh
profile and is preserved by every entry path. -/
def LevelBound (st : UserState) : Prop :=
  st.profile.level ≤ st.profile.experience_points / 100 + 1

/-- The profile after an award_xp call is untouched (the unlock loop
raised before profile.save), or carries the added XP with the level kept,
or carries the added XP with the level raised to the webhook map value. -/
lemma award_profile_cases (st : UserState) (pl : AwardPayload) :
    ((elevenlabs_award_xp_webhook st pl).1).profile = st.profile ∨
    ((elevenlabs_award_xp_webhook st pl).1).profile =
      { level := st.profile.level,
        experience_points := st.profile.experience_points +
          (calculate_base_xp pl.difficulty pl.score +
            calculate_bonus_xp pl.phoneme pl.score),
        total_speaking_time := st.profile.total_speaking_time } ∨
    (((elevenlabs_award_xp_webhook st pl).1).profile =
      { level := calculate_level_from_xp (st.profile.experience_points +
          (calculate_base_xp pl.difficulty pl.score +
            calculate_bonus_xp pl.phoneme pl.score)),
        experience_points := st.profile.experience_points +
          (calculate_base_xp pl.difficulty pl.score +
            calculate_bonus_xp pl.phoneme pl.score),
        total_speaking_time := st.profile.total_speaking_time } ∧
      st.profile.level < calculate_level_from_xp
        (st.profile.experience_points +
          (calculate_base_xp pl.difficulty pl.score +
            calculate_bonus_xp pl.phoneme pl.score))) := by
  unfold elevenlabs_award_xp_webhook
  dsimp only
  repeat' split
  all_goals first
    | exact Or.inl rfl
    | exact Or.inr (Or.inl rfl)
    | exact Or.inr (Or.inr ⟨rfl, by assumption⟩)
    | simp_all

/-- Same three-way shape for conversation_end. -/
lemma conversation_end_profile_cases (st : UserState)
    (pl : ConversationEndPayload) :
    ((elevenlabs_conversation_end_webhook st pl).1).profile = st.profile ∨
    ((elevenlabs_conversation_end_webhook st pl).1).profile =
      { level := st.profile.level,
        experience_points := st.profile.experience_points +
          calculate_conversation_xp pl.analysis,
        total_speaking_time := st.profile.total_speaking_time } ∨
    (((elevenlabs_conversation_end_webhook st pl).1).profile =
      { level := calculate_level_from_xp (st.profile.experience_points +
          calculate_conversation_xp pl.analysis),
        experience_points := st.profile.experience_points +
          calculate_conversation_xp pl.analysis,
        total_speaking_time := st.profile.total_speaking_time } ∧
      st.profile.level < calculate_level_from_xp
        (st.profile.experience_points +
          calculate_conversation_xp pl.analysis)) := by
  unfold elevenlabs_conversation_end_webhook
  dsimp only
  repeat' split
  all_goals first
    | exact Or.inl rfl
    | exact Or.inr (Or.inl rfl)
    | exact Or.inr (Or.inr ⟨rfl, by assumption⟩)
    | simp_all

/-- One step of any entry path leaves experience_points, speaking time and
level no smaller, and preserves the level bound. -/
lemma step_mono_inv (st : UserState) (e : Event) (h : LevelBound st) :
    st.profile.experience_points ≤ (step st e).profile.experience_points ∧
    st.profile.total_speaking_time ≤
      (step st e).profile.total_speaking_time ∧
    st.profile.level ≤ (step st e).profile.level ∧
    LevelBound (step st e) := by
  unfold LevelBound at h ⊢
  cases e with
  | wsAnalyze a w d rid =>
    simp only [step, save_speech_session_atomic]
    split
    · exact ⟨le_refl _, le_refl _, le_refl _, h⟩
    · dsimp only
      refine ⟨by omega, by omega, by omega, by omega⟩
  | sessionView xp d =>
    simp only [step, update_user_progress_session_view]
    by_cases hc : st.profile.level * 100 ≤ st.profile.experience_points + xp
    · rw [if_pos hc]
      refine ⟨by omega, by omega, by omega, by omega⟩
    · rw [if_neg hc]
      refine ⟨by omega, by omega, by omega, by omega⟩
  | achievementReward r =>
    simp only [step, achievement_reward_xp]
    refine ⟨by omega, by omega, by omega, by omega⟩
  | feedback d eng =>
    simp only [step, conversation_feedback_progress]
    have hge := feedback_level_loop_ge
      (st.profile.experience_points + feedback_experience d eng)
      st.profile.level
    have hle := feedback_level_loop_le
      (st.profile.experience_points + feedback_experience d eng)
      st.profile.level (by omega)
    exact ⟨by omega, by omega, hge, hle⟩
  | awardXp pl =>
    have hwb := calculate_level_from_xp_le (st.profile.experience_points +
      (calculate_base_xp pl.difficulty pl.score +
        calculate_bonus_xp pl.phoneme pl.score))
    have hc := award_profile_cases st pl
    simp only [step]
    rcases hc with hc | hc | ⟨hc, hlt⟩ <;> rw [hc] <;> (try dsimp only) <;>
      refine ⟨by omega, by omega, by omega, by omega⟩
  | conversationEnd pl =>
    have hwb := calculate_level_from_xp_le (st.profile.experience_points +
      calculate_conversation_xp pl.analysis)
    have hc := conversation_end_profile_cases st pl
    simp only [step]
    rcases hc with hc | hc | ⟨hc, hlt⟩ <;> rw [hc] <;> (try dsimp only) <;>
      refine ⟨by omega, by omega, by omega, by omega⟩


/-! ## Additional helper lemmas for the claims -/

lemma threshold_lower (l : Nat) : (l - 1) * 100 ≤ calculate_xp_for_level l := by
  unfold calculate_xp_for_level
  split
  · omega
  · split
    · omega
    · have h2 : (l - 1) * 100 ≤ 400 + (l - 5) * 150 := by omega
      exact le_trans h2 (Nat.le_add_right _ _)

lemma level_for_xp_spec_spec (xp : Nat) :
    calculate_xp_for_level (level_for_xp_spec xp) ≤ xp ∧
    ∀ l, calculate_xp_for_level l ≤ xp → l ≤ level_for_xp_spec xp := by
  constructor
  · have h1 : calculate_xp_for_level 1 ≤ xp := by
      have : calculate_xp_for_level 1 = 0 := rfl
      omega
    exact Nat.findGreatest_spec (P := fun l => calculate_xp_for_level l ≤ xp)
      (Nat.le_add_left 1 (xp / 100)) h1
  · intro l hl
    have hbound : l ≤ xp / 100 + 1 := by
      have := threshold_lower l
      omega
    exact Nat.le_findGreatest hbound hl
lemma unlock_fold_noop (level : Nat) (cat : List (String × String × Nat))
    (rows : List UnlockRow)
    (hall : ∀ e ∈ cat, e.2.2 ≤ level →
      (⟨e.1, e.2.1, e.2.2⟩ : UnlockRow) ∈ rows) :
    cat.foldl (unlockStep level) (rows, true) = (rows, true) := by
  induction cat with
  | nil => rfl
  | cons e cat ih =>
    rw [List.foldl_cons]
    have hstep : unlockStep level (rows, true) e = (rows, true) := by
      simp only [unlockStep]
      by_cases hle : e.2.2 ≤ level
      · rw [if_pos trivial, if_pos hle]
        unfold get_or_create_unlock
        have hmem := hall e (List.mem_cons_self e cat) hle
        have hany : rows.any (fun r =>
            r.customization_type == e.1 && r.customization_value == e.2.1 &&
              r.level_required == e.2.2) = true := by
          rw [List.any_eq_true]
          exact ⟨_, hmem, by simp⟩
        rw [if_pos hany]
      · rw [if_pos trivial, if_neg hle]
    rw [hstep]
    exact ih (fun f hf => hall f (List.mem_cons_of_mem e hf))

/-! ## Claims -/

/-- C1 counterexample: the award_xp webhook path is not idempotent.  On a
fresh user, delivering the same award_xp event (difficulty hard, score 90,
session_id "sess-1") twice leaves 46 XP instead of 23: the second delivery
commits the XP again before the session insert hits the uniqueness
constraint, and the caller gets an error rather than a duplicate no-op. -/
theorem c1_counterexample :
    (elevenlabs_award_xp_webhook
      (elevenlabs_award_xp_webhook initialState
        ⟨"hard", 90, "r", some "sess-1"⟩).1
      ⟨"hard", 90, "r", some "sess-1"⟩).1.profile.experience_points = 46 ∧
    (elevenlabs_award_xp_webhook initialState
      ⟨"hard", 90, "r", some "sess-1"⟩).1.profile.experience_points = 23 ∧
    (elevenlabs_award_xp_webhook
      (elevenlabs_award_xp_webhook initialState
        ⟨"hard", 90, "r", some "sess-1"⟩).1
      ⟨"hard", 90, "r", some "sess-1"⟩).1 ≠
      (elevenlabs_award_xp_webhook initialState
        ⟨"hard", 90, "r", some "sess-1"⟩).1 ∧
    (elevenlabs_award_xp_webhook
      (elevenlabs_award_xp_webhook initialState
        ⟨"hard", 90, "r", some "sess-1"⟩).1
      ⟨"hard", 90, "r", some "sess-1"⟩).2 =
      Except.error "IntegrityError" := by
  have h46 : (elevenlabs_award_xp_webhook
      (elevenlabs_award_xp_webhook initialState
        ⟨"hard", 90, "r", some "sess-1"⟩).1
      ⟨"hard", 90, "r", some "sess-1"⟩).1.profile.experience_points = 46 := by
    decide
  have h23 : (elevenlabs_award_xp_webhook initialState
      ⟨"hard", 90, "r", some "sess-1"⟩).1.profile.experience_points = 23 := by
    decide
  refine ⟨h46, h23, ?_, by rfl⟩
  intro heq
  rw [heq] at h46
  omega

/-- C1 amended: on the WebSocket path the idempotence contract does hold:
re-applying save_speech_session_atomic with the same request id returns
None (duplicate) and leaves the state unchanged. -/
theorem c1_ws_idempotence (st : UserState) (a : WsAnalysis)
    (w d : Nat) (rid : String) :
    save_speech_session_atomic
      (save_speech_session_atomic st a w d rid).2 a w d rid =
      (none, (save_speech_session_atomic st a w d rid).2) := by
  have hdup2 : ((save_speech_session_atomic st a w d rid).2).sessions.any
      (fun s => s.session_id == some rid) = true := by
    unfold save_speech_session_atomic
    by_cases hdup : st.sessions.any (fun s => s.session_id == some rid) = true
    · rw [if_pos hdup]
      exact hdup
    · rw [if_neg hdup]
      dsimp only
      rw [List.any_append]
      simp [speechSessionSave]
  set st1 := (save_speech_session_atomic st a w d rid).2 with hst1
  unfold save_speech_session_atomic
  rw [if_pos hdup2]

/-- C2 counterexample: the level consistency invariant fails.  On the
session-create view path, a fresh profile receiving one 250-XP session is
stored with level 2, while LevelCalculator.level_for_xp(250) = 3 (the
staged curve reaches level 3 at 200 XP). -/
theorem c2_counterexample :
    (update_user_progress_session_view ⟨1, 0, 0⟩ 250 10).level = 2 ∧
    level_for_xp_spec
      (update_user_progress_session_view ⟨1, 0, 0⟩ 250 10).experience_points
      = 3 ∧
    (update_user_progress_session_view ⟨1, 0, 0⟩ 250 10).level ≠
      level_for_xp_spec
        (update_user_progress_session_view ⟨1, 0, 0⟩ 250 10).experience_points
    := by
  decide

/-- C2 amended: only the WebSocket path keeps a level/XP consistency, and
with the flat rule it actually implements: after every successful
save_speech_session_atomic the stored level equals xp / 100 + 1. -/
theorem c2_ws_level_consistency (st : UserState) (a : WsAnalysis)
    (w d : Nat) (rid : String) (r : ConsumerResult)
    (h : (save_speech_session_atomic st a w d rid).1 = some r) :
    ((save_speech_session_atomic st a w d rid).2).profile.level =
      ((save_speech_session_atomic st a w d rid).2).profile.experience_points
        / 100 + 1 := by
  unfold save_speech_session_atomic at h ⊢
  by_cases hdup : st.sessions.any (fun s => s.session_id == some rid) = true
  · rw [if_pos hdup] at h
    exact absurd h (by simp)
  · rw [if_neg hdup]

theorem c2_witness :
    ((save_speech_session_atomic initialState ⟨80, 80, 80, 80, 15⟩ 3 10
        "r1").2).profile.level =
      ((save_speech_session_atomic initialState ⟨80, 80, 80, 80, 15⟩ 3 10
        "r1").2).profile.experience_points / 100 + 1 :=
  c2_ws_level_consistency initialState ⟨80, 80, 80, 80, 15⟩ 3 10 "r1"
    ⟨1, 1, 15, 15⟩ (by decide)

/-- C3 counterexample: not every component maps XP to the same level.  At
200 XP the webhook helper _calculate_level_from_xp answers 2, while the
largest level whose staged threshold (models.py _calculate_xp_for_level)
is at most 200 is 3; the flat consumer rule at 500 XP answers 6 against
the staged 5. -/
theorem c3_counterexample :
    calculate_level_from_xp 200 = 2 ∧
    level_for_xp_spec 200 = 3 ∧
    calculate_level_from_xp 200 ≠ level_for_xp_spec 200 ∧
    (500 : Nat) / 100 + 1 = 6 ∧
    level_for_xp_spec 500 = 5 := by
  refine ⟨?_, by decide, ?_, by decide, by decide⟩
  · rw [calculate_level_from_xp]
    decide
  · rw [calculate_level_from_xp]
    decide

/-- C3 amended: the threshold formula of the claim is exactly the curve of
models.py _calculate_xp_for_level, and level_for_xp defined as the largest
level whose threshold is at most xp is well behaved; but the webhook map
is a different function. -/
theorem c3_threshold_curve :
    (∀ level : Nat, calculate_xp_for_level level =
      if level ≤ 5 then (level - 1) * 100
      else 400 + (level - 5) * 150 + (level - 5) * (level - 6) * 25) ∧
    (∀ xp : Nat, calculate_xp_for_level (level_for_xp_spec xp) ≤ xp ∧
      ∀ l : Nat, calculate_xp_for_level l ≤ xp → l ≤ level_for_xp_spec xp) ∧
    ¬ (∀ xp : Nat, calculate_level_from_xp xp = level_for_xp_spec xp) := by
  refine ⟨?_, level_for_xp_spec_spec, ?_⟩
  · intro level
    unfold calculate_xp_for_level
    split
    · split
      · omega
      · omega
    · rfl
  · intro hall
    have h := hall 200
    rw [calculate_level_from_xp] at h
    revert h
    decide

theorem c3_witness :
    calculate_xp_for_level 3 ≤ 250 ∧ 3 ≤ level_for_xp_spec 250 :=
  ⟨by decide, (c3_threshold_curve.2.1 250).2 3 (by decide)⟩

/-- C4 counterexample: on the webhook path a failure after the duplicate
point does not abort the whole unit.  Re-delivering an award_xp event
(medium, 70, session "sess-9") ends in an error, yet the profile keeps the
second XP grant (24 instead of 12) while the session insert was rolled
back alone (still one session row). -/
theorem c4_counterexample :
    (elevenlabs_award_xp_webhook
      (elevenlabs_award_xp_webhook initialState
        ⟨"medium", 70, "s", some "sess-9"⟩).1
      ⟨"medium", 70, "s", some "sess-9"⟩).2 =
      Except.error "IntegrityError" ∧
    (elevenlabs_award_xp_webhook
      (elevenlabs_award_xp_webhook initialState
        ⟨"medium", 70, "s", some "sess-9"⟩).1
      ⟨"medium", 70, "s", some "sess-9"⟩).1.profile.experience_points = 24 ∧
    (elevenlabs_award_xp_webhook initialState
      ⟨"medium", 70, "s", some "sess-9"⟩).1.profile.experience_points = 12 ∧
    (elevenlabs_award_xp_webhook
      (elevenlabs_award_xp_webhook initialState
        ⟨"medium", 70, "s", some "sess-9"⟩).1
      ⟨"medium", 70, "s", some "sess-9"⟩).1.sessions.length = 1 := by
  exact ⟨by rfl, by decide, by decide, by decide⟩

/-- C4 amended: the all-or-nothing failure semantics holds on the
WebSocket path (a None outcome leaves the state exactly as before), but on
the webhook path a duplicate-key failure during session creation leaves
the already committed XP update in place. -/
theorem c4_atomicity :
    (∀ (st : UserState) (a : WsAnalysis) (w d : Nat) (rid : String),
      (save_speech_session_atomic st a w d rid).1 = none →
      (save_speech_session_atomic st a w d rid).2 = st) ∧
    (∀ (st : UserState) (pl : AwardPayload) (sid : String),
      pl.session_id = some sid →
      st.sessions.any (fun s => s.session_id == some sid) = true →
      unlocks_consistent st.unlocked = true →
      (elevenlabs_award_xp_webhook st pl).2 =
        Except.error "IntegrityError" ∧
      ((elevenlabs_award_xp_webhook st pl).1).profile.experience_points =
        st.profile.experience_points +
          (calculate_base_xp pl.difficulty pl.score +
            calculate_bonus_xp pl.phoneme pl.score) ∧
      ((elevenlabs_award_xp_webhook st pl).1).sessions = st.sessions) := by
  constructor
  · intro st a w d rid h
    unfold save_speech_session_atomic at h ⊢
    by_cases hdup : st.sessions.any (fun s => s.session_id == some rid) = true
    · rw [if_pos hdup]
    · rw [if_neg hdup] at h
      exact absurd h (by simp)
  · intro st pl sid hsid hdup hcons
    unfold elevenlabs_award_xp_webhook
    simp only [hsid]
    by_cases hlu : st.profile.level <
        calculate_level_from_xp (st.profile.experience_points +
          (calculate_base_xp pl.difficulty pl.score +
            calculate_bonus_xp pl.phoneme pl.score))
    · simp only [hlu, if_true, if_pos]
      have hok := (unlock_customizations_for_level_spec
        (calculate_level_from_xp (st.profile.experience_points +
          (calculate_base_xp pl.difficulty pl.score +
            calculate_bonus_xp pl.phoneme pl.score))) st.unlocked hcons).1
      simp only [hok, Bool.true_eq_false, if_false]
      simp only [hdup, if_true, if_pos]
      exact ⟨trivial, trivial, trivial⟩
    · simp only [hlu, if_false, Bool.true_eq_false]
      simp only [hdup, if_true, if_pos]
      exact ⟨trivial, trivial, trivial⟩

theorem c4_witness :
    (save_speech_session_atomic
      ⟨⟨1, 0, 0⟩, [⟨some "r9", 10, 3, 80, 80, 80, 80, 15⟩], []⟩
      ⟨80, 80, 80, 80, 15⟩ 3 10 "r9").2 =
      ⟨⟨1, 0, 0⟩, [⟨some "r9", 10, 3, 80, 80, 80, 80, 15⟩], []⟩ ∧
    (elevenlabs_award_xp_webhook
      ⟨⟨1, 0, 0⟩, [⟨some "s9", 30, 1, 70, 70, 70, 70, 12⟩], []⟩
      ⟨"medium", 70, "s", some "s9"⟩).2 = Except.error "IntegrityError" :=
  ⟨c4_atomicity.1 ⟨⟨1, 0, 0⟩, [⟨some "r9", 10, 3, 80, 80, 80, 80, 15⟩], []⟩
      ⟨80, 80, 80, 80, 15⟩ 3 10 "r9" (by decide),
   (c4_atomicity.2 ⟨⟨1, 0, 0⟩, [⟨some "s9", 30, 1, 70, 70, 70, 70, 12⟩], []⟩
      ⟨"medium", 70, "s", some "s9"⟩ "s9" rfl (by decide) (by decide)).1⟩

/-- C5: the award_xp XP formula.  For difficulty in easy / medium / hard
and score 0-100, base plus bonus XP equals
difficulty_base * score / 100 (the integer policy of the source is
truncation of base * (score / 100.0)) plus the 10 / 5 / 0 accuracy bonus;
hard with score 90 gives 23, end to end through the webhook as well. -/
theorem c5_award_xp_formula :
    (∀ (d ph : String) (score : Nat), score ≤ 100 →
      d = "easy" ∨ d = "medium" ∨ d = "hard" →
      calculate_base_xp d score + calculate_bonus_xp ph score =
        (if d = "easy" then 5 else if d = "medium" then 10 else 15) *
            score / 100 +
          (if 80 ≤ score then 10 else if 60 ≤ score then 5 else 0)) ∧
    calculate_base_xp "hard" 90 + calculate_bonus_xp "r" 90 = 23 ∧
    (elevenlabs_award_xp_webhook initialState ⟨"hard", 90, "r", none⟩).2 =
      Except.ok ⟨23, 1, 23, false, 1, 1⟩ ∧
    (elevenlabs_award_xp_webhook initialState
      ⟨"hard", 90, "r", none⟩).1.profile.experience_points = 23 := by
  refine ⟨?_, by decide, by rfl, by decide⟩
  intro d ph score hs hd
  rcases hd with hd | hd | hd <;> subst hd <;>
    simp [calculate_base_xp, calculate_bonus_xp]

theorem c5_witness :
    (90 : Nat) ≤ 100 ∧
    calculate_base_xp "hard" 90 + calculate_bonus_xp "r" 90 =
      (if "hard" = "easy" then 5 else if "hard" = "medium" then 10 else 15)
          * 90 / 100 +
        (if 80 ≤ 90 then 10 else if 60 ≤ 90 then 5 else 0) :=
  ⟨by decide, c5_award_xp_formula.1 "hard" "r" 90 (by decide)
    (Or.inr (Or.inr rfl))⟩

/-- C6 counterexample: unlock completeness fails on the conversation
feedback path.  A user at level 1 with 250 XP (reachable, since
achievement rewards add XP without touching the level) gains 67 XP from a
high-engagement one-hour conversation: the level jumps 1 -> 4, but only
the level-4 reward (accessory hat) is granted; the catalog entry
eye_color blue with threshold 2 <= 4 is still missing. -/
theorem c6_counterexample :
    (conversation_feedback_progress ⟨⟨1, 250, 0⟩, [], []⟩ 3600
      "high").profile.level = 4 ∧
    (⟨⟨1, 250, 0⟩, [], []⟩ : UserState).profile.level = 1 ∧
    ("eye_color", "blue", 2) ∈ level_requirements ∧
    (⟨"eye_color", "blue", 2⟩ : UnlockRow) ∉
      (conversation_feedback_progress ⟨⟨1, 250, 0⟩, [], []⟩ 3600
        "high").unlocked := by
  have hloop : feedback_level_loop 317 1 = 4 := by
    rw [feedback_level_loop, if_pos (by norm_num), feedback_level_loop,
      if_pos (by norm_num), feedback_level_loop, if_pos (by norm_num),
      feedback_level_loop, if_neg (by norm_num)]
  have hcf : conversation_feedback_progress ⟨⟨1, 250, 0⟩, [], []⟩ 3600
      "high" = ⟨⟨4, 317, 3600⟩, [], unlock_level_rewards 4 []⟩ := by
    unfold conversation_feedback_progress
    dsimp only
    rw [show (250 : Nat) + feedback_experience 3600 "high" = 317 from rfl,
      hloop, if_pos (by norm_num : (1 : Nat) < 4)]
  rw [hcf]
  decide

/-- C6 amended: completeness holds for the webhook unlock routine
_unlock_customizations_for_level: starting from rows consistent with the
catalog it raises nothing, keeps every already granted row, grants every
catalog pair with threshold at most the reached level, and running it a
second time changes nothing (idempotent grant). -/
theorem c6_webhook_unlock_completeness (level : Nat)
    (rows : List UnlockRow) (h : unlocks_consistent rows = true) :
    (unlock_customizations_for_level level rows).2 = true ∧
    (∀ r ∈ rows, r ∈ (unlock_customizations_for_level level rows).1) ∧
    (∀ e ∈ level_requirements, e.2.2 ≤ level →
      (⟨e.1, e.2.1, e.2.2⟩ : UnlockRow) ∈
        (unlock_customizations_for_level level rows).1) ∧
    unlock_customizations_for_level level
        (unlock_customizations_for_level level rows).1 =
      ((unlock_customizations_for_level level rows).1, true) := by
  obtain ⟨h1, h2, h3, h4⟩ := unlock_customizations_for_level_spec level rows h
  refine ⟨h1, h2, h3, ?_⟩
  exact unlock_fold_noop level level_requirements _ (fun e he hle => h3 e he hle)

theorem c6_witness :
    unlocks_consistent [] = true ∧
    (unlock_customizations_for_level 4 []).2 = true ∧
    (⟨"eye_color", "blue", 2⟩ : UnlockRow) ∈
      (unlock_customizations_for_level 4 []).1 :=
  ⟨by decide, (c6_webhook_unlock_completeness 4 [] (by decide)).1,
    (c6_webhook_unlock_completeness 4 [] (by decide)).2.2.1
      ("eye_color", "blue", 2) (by decide) (by decide)⟩

/-- C7 counterexample: the conversation XP formula truncates instead of
rounding.  With overall_accuracy 91, words 0, duration 0 the source
grants 20 + int(91 * 0.5) = 65 XP, while the claimed formula with round
gives 66. -/
theorem c7_counterexample :
    calculate_conversation_xp (some ⟨91, 0, 0⟩) = 65 ∧
    conversation_xp_claim ⟨91, 0, 0⟩ = 66 ∧
    calculate_conversation_xp (some ⟨91, 0, 0⟩) ≠
      conversation_xp_claim ⟨91, 0, 0⟩ := by
  decide

/-- C7 amended: for every conversation_end call with a non-empty analysis
(and no session_id, so that the session insert does not raise), the XP
granted to the profile equals
20 + accuracy / 2 + min(words * 2, 50) + min(duration * 5, 30), with
floor division in place of round. -/
theorem c7_conversation_xp (st : UserState) (a : AnalysisResults)
    (h : unlocks_consistent st.unlocked = true) :
    (∃ r : ConversationEndResponse,
      (elevenlabs_conversation_end_webhook st ⟨some a, none⟩).2 =
        Except.ok r ∧
      r.xp_earned = 20 + a.overall_accuracy / 2 +
        min (a.words_spoken * 2) 50 + min (a.duration_minutes * 5) 30) ∧
    ((elevenlabs_conversation_end_webhook st
      ⟨some a, none⟩).1).profile.experience_points =
      st.profile.experience_points + (20 + a.overall_accuracy / 2 +
        min (a.words_spoken * 2) 50 + min (a.duration_minutes * 5) 30) := by
  obtain ⟨h1, h2⟩ := conversation_end_no_session st a h
  exact ⟨⟨_, h1, rfl⟩, h2⟩

theorem c7_witness :
    unlocks_consistent ([] : List UnlockRow) = true ∧
    ((elevenlabs_conversation_end_webhook
      ⟨⟨1, 0, 0⟩, [], []⟩ ⟨some ⟨91, 10, 2⟩, none⟩).1).profile.experience_points
      = 0 + (20 + 91 / 2 + min (10 * 2) 50 + min (2 * 5) 30) :=
  ⟨by decide, (c7_conversation_xp ⟨⟨1, 0, 0⟩, [], []⟩ ⟨91, 10, 2⟩
    (by decide)).2⟩

/-- Auxiliary: the level bound invariant holds along every event sequence
started from a fresh user. -/
lemma foldl_level_bound (es : List Event) (st : UserState)
    (h : LevelBound st) : LevelBound (es.foldl step st) := by
  induction es generalizing st with
  | nil => exact h
  | cons e es ih => exact ih _ (step_mono_inv st e h).2.2.2

/-- C8: monotonicity.  Along any sequence of events applied to a fresh
user through any mix of entry paths, experience_points,
total_speaking_time and level never decrease from one state to the next. -/
theorem c8_monotonicity (es : List Event) (e : Event) :
    (es.foldl step initialState).profile.experience_points ≤
      (step (es.foldl step initialState) e).profile.experience_points ∧
    (es.foldl step initialState).profile.total_speaking_time ≤
      (step (es.foldl step initialState) e).profile.total_speaking_time ∧
    (es.foldl step initialState).profile.level ≤
      (step (es.foldl step initialState) e).profile.level := by
  have hb : LevelBound (es.foldl step initialState) :=
    foldl_level_bound es initialState (by
      unfold LevelBound
      decide)
  have h := step_mono_inv (es.foldl step initialState) e hb
  exact ⟨h.1, h.2.1, h.2.2.1⟩

/-- C9: an award_xp payload without session_id still adds the XP but
creates no session row, so an identical redelivery is never detected: two
deliveries add the XP twice, both reported as success. -/
theorem c9_no_session_double_award (st : UserState) (pl : AwardPayload)
    (hsid : pl.session_id = none)
    (h : unlocks_consistent st.unlocked = true) :
    ((elevenlabs_award_xp_webhook st pl).2).isOk = true ∧
    ((elevenlabs_award_xp_webhook st pl).1).sessions = st.sessions ∧
    ((elevenlabs_award_xp_webhook st pl).1).profile.experience_points =
      st.profile.experience_points +
        (calculate_base_xp pl.difficulty pl.score +
          calculate_bonus_xp pl.phoneme pl.score) ∧
    ((elevenlabs_award_xp_webhook
        (elevenlabs_award_xp_webhook st pl).1 pl).2).isOk = true ∧
    ((elevenlabs_award_xp_webhook
        (elevenlabs_award_xp_webhook st pl).1 pl).1).sessions =
      st.sessions ∧
    ((elevenlabs_award_xp_webhook
        (elevenlabs_award_xp_webhook st pl).1 pl).1).profile.experience_points
      = st.profile.experience_points +
        2 * (calculate_base_xp pl.difficulty pl.score +
          calculate_bonus_xp pl.phoneme pl.score) := by
  obtain ⟨h1, h2, h3, h4⟩ := award_no_session st pl hsid h
  obtain ⟨g1, g2, g3, g4⟩ :=
    award_no_session (elevenlabs_award_xp_webhook st pl).1 pl hsid h4
  refine ⟨by rw [h1]; rfl, h3, h2, by rw [g1]; rfl, ?_, ?_⟩
  · rw [g3, h3]
  · rw [g2, h2]
    ring

theorem c9_witness :
    (⟨"easy", 50, "s", none⟩ : AwardPayload).session_id = none ∧
    unlocks_consistent (⟨⟨1, 0, 0⟩, [], []⟩ : UserState).unlocked = true ∧
    ((elevenlabs_award_xp_webhook
        (elevenlabs_award_xp_webhook ⟨⟨1, 0, 0⟩, [], []⟩
          ⟨"easy", 50, "s", none⟩).1
        ⟨"easy", 50, "s", none⟩).1).profile.experience_points =
      0 + 2 * (calculate_base_xp "easy" 50 + calculate_bonus_xp "s" 50) :=
  ⟨rfl, by decide,
    (c9_no_session_double_award ⟨⟨1, 0, 0⟩, [], []⟩ ⟨"easy", 50, "s", none⟩
      rfl (by decide)).2.2.2.2.2⟩

/-- C10: SpeechSession.save always stores overall_score as the mean of
clarity, fluency and confidence, overwriting whatever overall_score the
caller supplied. -/
theorem c10_overall_score (s : SpeechSessionRow) (x : Rat) :
    (speechSessionSave s).overall_score =
      (s.clarity_score + s.fluency_score + s.confidence_score) / 3 ∧
    speechSessionSave { s with overall_score := x } = speechSessionSave s := by
  exact ⟨rfl, rfl⟩

end SpeechPal
